import Mathlib

/-
Verification of the spot-pointer geometric aiming engine.

The TypeScript source is shallowly embedded over exact real numbers:
JavaScript numbers become `ℝ`, `Math.atan2 y x` becomes `Complex.arg (x + y*I)`
(identical conventions on all real inputs: range (-π, π], `atan2 0 x = 0` for
`x ≥ 0`, `atan2 0 x = π` for `x < 0`, `atan2 y 0 = ±π/2` for `y ≠ 0`),
`Math.sqrt` becomes `Real.sqrt`, and the JavaScript `%` operator (a remainder
whose sign follows the dividend, i.e. truncated division) is modelled by
`jsRem` below.  Two variants of the engine exist in the repository: the
canonical one in `src/utils/geometry.ts` (namespace `Geometry`) and the earlier
revision (namespace `V0`).  The store action `aimFixtureAt` from
`src/stores/lightingStore.ts` is embedded in namespace `Store`.
-/

noncomputable section

namespace SpotPointer

open Real

/-- JavaScript `Math.atan2 y x` over exact reals: the argument of the point
`(x, y)`, in `(-π, π]`. -/
def jsAtan2 (y x : ℝ) : ℝ := Complex.arg ((x : ℂ) + (y : ℂ) * Complex.I)

/-- Radians to degrees, as written in the source: `angle * (180 / Math.PI)`. -/
def toDegrees (r : ℝ) : ℝ := r * (180 / Real.pi)

/-- Truncation toward zero, the rounding used by the JavaScript `%` operator. -/
def truncR (x : ℝ) : ℤ := if 0 ≤ x then ⌊x⌋ else ⌈x⌉

/-- JavaScript remainder `a % b`: `a - b * trunc (a / b)`; the sign of the
result follows the dividend `a`. -/
def jsRem (a b : ℝ) : ℝ := a - b * (truncR (a / b) : ℝ)

/-- `{ min, max }` range record of the `Fixture` interface. -/
structure Range where
  min : ℝ
  max : ℝ

/-- RGB color record of the `Fixture` interface. -/
structure Color where
  r : ℝ
  g : ℝ
  b : ℝ

/-- The `Fixture` interface from `src/types/lighting.ts`. -/
structure Fixture where
  id : ℤ
  x : ℝ
  y : ℝ
  z : ℝ
  pan : ℝ
  tilt : ℝ
  dimmer : ℝ
  color : Color
  gobo : ℝ
  zoom : ℝ
  iris : ℝ
  isSelected : Bool
  targetX : ℝ
  targetY : ℝ
  panRange : Range
  tiltRange : Range
  panOffset : ℝ
  tiltOffset : ℝ
  panInverted : Bool
  tiltInverted : Bool

/-- Result record `{ pan, tilt }` of `calculatePanTilt`. -/
structure Aim where
  pan : ℝ
  tilt : ℝ

/-- The `FloorPlan` fields used by the coordinate mapper. -/
structure FloorPlanDims where
  width : ℝ
  height : ℝ
  pixelsPerMeter : ℝ

namespace Geometry

/-- Raw pan of `src/utils/geometry.ts` line 19:
`Math.atan2(dx, dy) * (180 / Math.PI)` — azimuth, 0° toward +y. -/
def rawPan (f : Fixture) (targetX targetY : ℝ) : ℝ :=
  toDegrees (jsAtan2 (targetX - f.x) (targetY - f.y))

/-- Horizontal distance `h = Math.sqrt(dx*dx + dy*dy)` (line 22). -/
def horizontalDist (f : Fixture) (targetX targetY : ℝ) : ℝ :=
  Real.sqrt ((targetX - f.x) * (targetX - f.x) + (targetY - f.y) * (targetY - f.y))

/-- Raw tilt of `src/utils/geometry.ts` lines 22-29, with the degenerate
`h === 0` case returning `±90` and otherwise `Math.atan2(h, dz)` in degrees,
where `dz = fixture.z - targetZ`. -/
def rawTilt (f : Fixture) (targetX targetY targetZ : ℝ) : ℝ :=
  if horizontalDist f targetX targetY = 0 then
    (if 0 < f.z - targetZ then 90 else -90)
  else
    toDegrees (jsAtan2 (horizontalDist f targetX targetY) (f.z - targetZ))

/-- Calibration of lines 31-37: sign flip when inverted, then offset added. -/
def calibrate (inverted : Bool) (offset angle : ℝ) : ℝ :=
  (if inverted then -angle else angle) + offset

/-- Pan after inversion and offset (lines 32 and 36). -/
def panAfterCalibration (f : Fixture) (targetX targetY : ℝ) : ℝ :=
  calibrate f.panInverted f.panOffset (rawPan f targetX targetY)

/-- Tilt after inversion and offset (lines 33 and 37). -/
def tiltAfterCalibration (f : Fixture) (targetX targetY targetZ : ℝ) : ℝ :=
  calibrate f.tiltInverted f.tiltOffset (rawTilt f targetX targetY targetZ)

/-- The wrap step of line 43: `((pan + 180.0) % 360.0) - 180.0` with the
JavaScript remainder. -/
def wrapPan (p : ℝ) : ℝ := jsRem (p + 180) 360 - 180

/-- Pan range handling of lines 39-49: when the configured span is at least
`360 - 1e-6` the pan is wrapped and then pulled to the nearer bound only if
still outside; otherwise it is clamped directly. -/
def applyPanRange (r : Range) (p : ℝ) : ℝ :=
  if 360 - 1e-6 ≤ r.max - r.min then
    (if wrapPan p < r.min then r.min
     else if r.max < wrapPan p then r.max
     else wrapPan p)
  else
    max r.min (min r.max p)

/-- Tilt clamp of line 52: `Math.max(min, Math.min(max, tilt))`. -/
def applyTiltRange (r : Range) (t : ℝ) : ℝ :=
  max r.min (min r.max t)

/-- `calculatePanTilt` of `src/utils/geometry.ts` lines 7-55 (canonical
variant), assembled exactly from the stages above in source order. -/
def calculatePanTilt (f : Fixture) (targetX targetY targetZ : ℝ) : Aim :=
  { pan := applyPanRange f.panRange (panAfterCalibration f targetX targetY)
    tilt := applyTiltRange f.tiltRange (tiltAfterCalibration f targetX targetY targetZ) }

/-- `degreesToPercent` of lines 60-66:
`Math.max(0, Math.min(100, ((degrees - min) / (max - min)) * 100))`. -/
def degreesToPercent (degrees mn mx : ℝ) : ℝ :=
  max 0 (min 100 ((degrees - mn) / (mx - mn) * 100))

/-- `percentToDegrees` of lines 71-77: `min + (percent / 100) * (max - min)`. -/
def percentToDegrees (percent mn mx : ℝ) : ℝ :=
  mn + percent / 100 * (mx - mn)

/-- `isTargetReachable` of lines 82-93: recomputes `calculatePanTilt` (whose
result is already wrapped and clamped) with `targetZ = 0` and tests the
returned angles against the configured ranges.  The boolean result of the
source is embedded as the proposition it decides. -/
def isTargetReachable (f : Fixture) (targetX targetY : ℝ) : Prop :=
  (f.panRange.min ≤ (calculatePanTilt f targetX targetY 0).pan ∧
    (calculatePanTilt f targetX targetY 0).pan ≤ f.panRange.max) ∧
  (f.tiltRange.min ≤ (calculatePanTilt f targetX targetY 0).tilt ∧
    (calculatePanTilt f targetX targetY 0).tilt ≤ f.tiltRange.max)

/-- `pixelToReal` of lines 128-139 (90°-rotated canvas, bottom-left origin). -/
def pixelToReal (pixelX pixelY : ℝ) (fp : FloorPlanDims) : ℝ × ℝ :=
  (pixelY / fp.pixelsPerMeter,
   (fp.height * fp.pixelsPerMeter - pixelX) / fp.pixelsPerMeter)

/-- `realToPixel` of lines 146-157 (90°-rotated canvas, bottom-left origin). -/
def realToPixel (realX realY : ℝ) (fp : FloorPlanDims) : ℝ × ℝ :=
  (fp.height * fp.pixelsPerMeter - realY * fp.pixelsPerMeter,
   realX * fp.pixelsPerMeter)

end Geometry

namespace V0

/-- Raw pan of the earlier revision (`src/unnamed/part_000` line 18):
`Math.atan2(dy, dx)` in degrees — bearing from the +X axis. -/
def rawPan (f : Fixture) (targetX targetY : ℝ) : ℝ :=
  toDegrees (jsAtan2 (targetY - f.y) (targetX - f.x))

/-- Pan calibration of part_000 lines 21-22: offset added first, then the
sign flip when inverted. -/
def panAfterCalibration (f : Fixture) (targetX targetY : ℝ) : ℝ :=
  if f.panInverted then -(rawPan f targetX targetY + f.panOffset)
  else rawPan f targetX targetY + f.panOffset

/-- Closed form of the two normalization loops of part_000 lines 25-26
(`while (pan > 270) pan -= 360; while (pan < -270) pan += 360;`): each loop
subtracts or adds 360 the least number of times needed to land at or below
270 respectively at or above -270, which for a finite real input is the
ceiling of the overshoot divided by 360. -/
def normalizePan (p : ℝ) : ℝ :=
  if 270 < p then p - 360 * (⌈(p - 270) / 360⌉ : ℝ)
  else if p < -270 then p + 360 * (⌈(-270 - p) / 360⌉ : ℝ)
  else p

/-- Raw tilt of part_000 lines 29-30: `Math.atan2(-dz, horizontalDistance)`
in degrees, with `dz = targetZ - fixture.z`. -/
def rawTilt (f : Fixture) (targetX targetY targetZ : ℝ) : ℝ :=
  toDegrees (jsAtan2 (-(targetZ - f.z))
    (Real.sqrt ((targetX - f.x) * (targetX - f.x) + (targetY - f.y) * (targetY - f.y))))

/-- Tilt calibration of part_000 lines 33-34: offset first, then inversion. -/
def tiltAfterCalibration (f : Fixture) (targetX targetY targetZ : ℝ) : ℝ :=
  if f.tiltInverted then -(rawTilt f targetX targetY targetZ + f.tiltOffset)
  else rawTilt f targetX targetY targetZ + f.tiltOffset

/-- `calculatePanTilt` of part_000 lines 6-37: no range clamping, only the
pan normalization loops. -/
def calculatePanTilt (f : Fixture) (targetX targetY targetZ : ℝ) : Aim :=
  { pan := normalizePan (panAfterCalibration f targetX targetY)
    tilt := tiltAfterCalibration f targetX targetY targetZ }

/-- `isTargetReachable` of part_000 lines 64-75. -/
def isTargetReachable (f : Fixture) (targetX targetY : ℝ) : Prop :=
  (f.panRange.min ≤ (calculatePanTilt f targetX targetY 0).pan ∧
    (calculatePanTilt f targetX targetY 0).pan ≤ f.panRange.max) ∧
  (f.tiltRange.min ≤ (calculatePanTilt f targetX targetY 0).tilt ∧
    (calculatePanTilt f targetX targetY 0).tilt ≤ f.tiltRange.max)

/-- `pixelToReal` of part_000 lines 108-117 (plain mapping, no rotation). -/
def pixelToReal (pixelX pixelY : ℝ) (fp : FloorPlanDims) : ℝ × ℝ :=
  (pixelX / fp.pixelsPerMeter, pixelY / fp.pixelsPerMeter)

/-- `realToPixel` of part_000 lines 122-131 (plain mapping, no rotation). -/
def realToPixel (realX realY : ℝ) (fp : FloorPlanDims) : ℝ × ℝ :=
  (realX * fp.pixelsPerMeter, realY * fp.pixelsPerMeter)

end V0

namespace Store

/-- The slice of the zustand store state that `aimFixtureAt` can read or
write (`src/stores/lightingStore.ts`): the fixture list, the shared target
point, plus the remaining persistent fields, which it must leave alone. -/
structure LightingState where
  fixtures : List Fixture
  targetPoint : Option (ℝ × ℝ)
  selectedFixtures : List ℤ
  floorPlan : FloorPlanDims

/-- `aimFixtureAt` of `src/stores/lightingStore.ts` lines 127-149: find the
fixture; if absent, return with the state untouched; otherwise compute
pan/tilt with the canonical engine at floor level (`targetZ = 0`), replace
the matching fixture's `pan`, `tilt`, `targetX`, `targetY`, and set the
shared `targetPoint`.  The `degreesToPercent` conversion and the API send in
the source are outbound I/O with no effect on the store state and are not
part of the state transition. -/
def aimFixtureAt (s : LightingState) (fixtureId : ℤ) (x y : ℝ) : LightingState :=
  match s.fixtures.find? (fun f => f.id == fixtureId) with
  | none => s
  | some fixture =>
      { s with
        fixtures := s.fixtures.map (fun f =>
          if f.id == fixtureId then
            { f with
              pan := (Geometry.calculatePanTilt fixture x y 0).pan
              tilt := (Geometry.calculatePanTilt fixture x y 0).tilt
              targetX := x
              targetY := y }
          else f)
        targetPoint := some (x, y) }

end Store

/-- Fixture 1 of `defaultFixtures` in `src/stores/lightingStore.ts`. -/
def fix1 : Fixture :=
  { id := 1, x := 1, y := 5, z := 3, pan := 0, tilt := 0, dimmer := 0
    color := { r := 255, g := 255, b := 255 }, gobo := 0, zoom := 15, iris := 50
    isSelected := false, targetX := 1, targetY := 3
    panRange := { min := -270, max := 270 }, tiltRange := { min := -134, max := 134 }
    panOffset := 0, tiltOffset := 0, panInverted := false, tiltInverted := false }

/-- A fixture at the origin with a narrow pan range, for exercising the
reachability check. -/
def fix2 : Fixture :=
  { fix1 with x := 0, y := 0, panRange := { min := -10, max := 10 } }

/-- A fixture at the origin with a -200° pan offset, for exercising the
pan wrap. -/
def fix3 : Fixture :=
  { fix1 with x := 0, y := 0, panOffset := -200 }

/-- A fixture at the origin with pan inversion and a 10° pan offset, for
exercising the calibration order. -/
def fix4 : Fixture :=
  { fix1 with x := 0, y := 0, panInverted := true, panOffset := 10 }

/-- A fixture at the origin at floor height with a narrow tilt range, for
exercising the degenerate overhead case. -/
def fix5 : Fixture :=
  { fix1 with x := 0, y := 0, z := 0, tiltRange := { min := 0, max := 10 } }

/-- The default floor plan of the store: width 12 m, height 8 m, 50 px/m. -/
def fp0 : FloorPlanDims := { width := 12, height := 8, pixelsPerMeter := 50 }

/-- A one-fixture store state for exercising `aimFixtureAt`. -/
def s0 : Store.LightingState :=
  { fixtures := [fix1], targetPoint := none, selectedFixtures := [], floorPlan := fp0 }

lemma toDegrees_zero : toDegrees 0 = 0 := by
  unfold toDegrees; ring

lemma toDegrees_pi_div_two : toDegrees (Real.pi / 2) = 90 := by
  unfold toDegrees
  have hne : Real.pi ≠ 0 := Real.pi_ne_zero
  field_simp
  ring

lemma toDegrees_pi_div_six : toDegrees (Real.pi / 6) = 30 := by
  unfold toDegrees
  have hne : Real.pi ≠ 0 := Real.pi_ne_zero
  field_simp
  ring

lemma jsAtan2_zero_one : jsAtan2 0 1 = 0 := by
  unfold jsAtan2
  push_cast
  rw [show (1 : ℂ) + 0 * Complex.I = 1 by ring]
  exact Complex.arg_one

lemma jsAtan2_one_zero : jsAtan2 1 0 = Real.pi / 2 := by
  unfold jsAtan2
  push_cast
  rw [show (0 : ℂ) + 1 * Complex.I = Complex.I by ring]
  exact Complex.arg_I

lemma jsAtan2_one_sqrt3 : jsAtan2 1 (Real.sqrt 3) = Real.pi / 6 := by
  unfold jsAtan2
  have hpi := Real.pi_pos
  have h2 : ((Real.sqrt 3 : ℝ) : ℂ) + ((1 : ℝ) : ℂ) * Complex.I =
      ((2 : ℝ) : ℂ) * (Complex.cos ↑(Real.pi / 6) + Complex.sin ↑(Real.pi / 6) * Complex.I) := by
    rw [← Complex.ofReal_cos, ← Complex.ofReal_sin, Real.cos_pi_div_six, Real.sin_pi_div_six]
    push_cast
    ring
  rw [h2, Complex.arg_real_mul _ (by norm_num),
    Complex.arg_cos_add_sin_mul_I ⟨by linarith, by linarith⟩]

lemma jsAtan2_deg_mem (y x : ℝ) : toDegrees (jsAtan2 y x) ∈ Set.Icc (-180 : ℝ) 180 := by
  have h1 := Complex.neg_pi_lt_arg ((x : ℂ) + (y : ℂ) * Complex.I)
  have h2 := Complex.arg_le_pi ((x : ℂ) + (y : ℂ) * Complex.I)
  have hc : (0 : ℝ) < 180 / Real.pi := by positivity
  have hne : Real.pi ≠ 0 := Real.pi_ne_zero
  unfold toDegrees jsAtan2
  constructor
  · have h3 : -Real.pi * (180 / Real.pi) ≤ Complex.arg ((x : ℂ) + (y : ℂ) * Complex.I) * (180 / Real.pi) :=
      mul_le_mul_of_nonneg_right (le_of_lt h1) (le_of_lt hc)
    calc (-180 : ℝ) = -Real.pi * (180 / Real.pi) := by field_simp; ring
    _ ≤ _ := h3
  · have h3 : Complex.arg ((x : ℂ) + (y : ℂ) * Complex.I) * (180 / Real.pi) ≤ Real.pi * (180 / Real.pi) :=
      mul_le_mul_of_nonneg_right h2 (le_of_lt hc)
    calc Complex.arg ((x : ℂ) + (y : ℂ) * Complex.I) * (180 / Real.pi)
        ≤ Real.pi * (180 / Real.pi) := h3
    _ = 180 := by field_simp

lemma clamp_mem {mn mx : ℝ} (h : mn ≤ mx) (t : ℝ) : max mn (min mx t) ∈ Set.Icc mn mx :=
  ⟨le_max_left _ _, max_le h (min_le_left _ _)⟩

lemma jsRem_mem_of_nonneg {a : ℝ} (ha : 0 ≤ a) : jsRem a 360 ∈ Set.Ico (0 : ℝ) 360 := by
  unfold jsRem truncR
  have h0 : 0 ≤ a / 360 := by positivity
  rw [if_pos h0]
  have f1 : ((⌊a / 360⌋ : ℤ) : ℝ) ≤ a / 360 := Int.floor_le _
  have f2 : a / 360 < (⌊a / 360⌋ : ℤ) + 1 := Int.lt_floor_add_one _
  constructor
  · nlinarith
  · nlinarith

lemma wrapPan_mem_Ico {p : ℝ} (h : -180 ≤ p) :
    Geometry.wrapPan p ∈ Set.Ico (-180 : ℝ) 180 := by
  have hm := jsRem_mem_of_nonneg (a := p + 180) (by linarith)
  unfold Geometry.wrapPan
  exact ⟨by linarith [hm.1], by linarith [hm.2]⟩

lemma applyPanRange_mem (r : Range) (h : r.min ≤ r.max) (p : ℝ) :
    Geometry.applyPanRange r p ∈ Set.Icc r.min r.max := by
  unfold Geometry.applyPanRange
  split_ifs with hspan h1 h2
  · exact ⟨le_refl _, h⟩
  · exact ⟨h, le_refl _⟩
  · exact ⟨le_of_not_lt h1, le_of_not_lt h2⟩
  · exact clamp_mem h p

lemma normalizePan_mem (p : ℝ) : V0.normalizePan p ∈ Set.Icc (-270 : ℝ) 270 := by
  unfold V0.normalizePan
  split_ifs with h1 h2
  · have c1 : (p - 270) / 360 ≤ ((⌈(p - 270) / 360⌉ : ℤ) : ℝ) := Int.le_ceil _
    have c2 : ((⌈(p - 270) / 360⌉ : ℤ) : ℝ) < (p - 270) / 360 + 1 := Int.ceil_lt_add_one _
    constructor
    · nlinarith
    · nlinarith
  · have c1 : (-270 - p) / 360 ≤ ((⌈(-270 - p) / 360⌉ : ℤ) : ℝ) := Int.le_ceil _
    have c2 : ((⌈(-270 - p) / 360⌉ : ℤ) : ℝ) < (-270 - p) / 360 + 1 := Int.ceil_lt_add_one _
    constructor
    · nlinarith
    · nlinarith
  · exact ⟨le_of_not_lt h2, le_of_not_lt h1⟩

lemma applyTiltRange_mem (r : Range) (h : r.min ≤ r.max) (t : ℝ) :
    Geometry.applyTiltRange r t ∈ Set.Icc r.min r.max := clamp_mem h t

/-- C1: for every fixture whose pan and tilt ranges are well-formed
(`min ≤ max`) and every target, the pan and tilt returned by the canonical
`calculatePanTilt` lie within `[panRange.min, panRange.max]` and
`[tiltRange.min, tiltRange.max]` respectively. -/
theorem calculatePanTilt_within_ranges (f : Fixture) (targetX targetY targetZ : ℝ)
    (hpan : f.panRange.min ≤ f.panRange.max)
    (htilt : f.tiltRange.min ≤ f.tiltRange.max) :
    (Geometry.calculatePanTilt f targetX targetY targetZ).pan ∈
      Set.Icc f.panRange.min f.panRange.max ∧
    (Geometry.calculatePanTilt f targetX targetY targetZ).tilt ∈
      Set.Icc f.tiltRange.min f.tiltRange.max :=
  ⟨applyPanRange_mem f.panRange hpan _, clamp_mem htilt _⟩

/-- Witness for C1 at the first default fixture aiming at its default target. -/
theorem calculatePanTilt_within_ranges_witness :
    (Geometry.calculatePanTilt fix1 1 3 0).pan ∈ Set.Icc fix1.panRange.min fix1.panRange.max ∧
    (Geometry.calculatePanTilt fix1 1 3 0).tilt ∈ Set.Icc fix1.tiltRange.min fix1.tiltRange.max :=
  calculatePanTilt_within_ranges fix1 1 3 0 (by norm_num [fix1]) (by norm_num [fix1])

/-- C6: the rotated mapper (canonical `geometry.ts`) and the plain mapper
(part_000) are mutual inverses: all four round-trip compositions reproduce
their input within `1e-9` (in exact real arithmetic they agree exactly),
for every floor plan with positive `pixelsPerMeter`. -/
theorem pixel_real_roundtrip (fp : FloorPlanDims) (hppm : 0 < fp.pixelsPerMeter)
    (px py rx ry : ℝ) :
    |(Geometry.realToPixel (Geometry.pixelToReal px py fp).1 (Geometry.pixelToReal px py fp).2 fp).1 - px| ≤ 1e-9 ∧
    |(Geometry.realToPixel (Geometry.pixelToReal px py fp).1 (Geometry.pixelToReal px py fp).2 fp).2 - py| ≤ 1e-9 ∧
    |(Geometry.pixelToReal (Geometry.realToPixel rx ry fp).1 (Geometry.realToPixel rx ry fp).2 fp).1 - rx| ≤ 1e-9 ∧
    |(Geometry.pixelToReal (Geometry.realToPixel rx ry fp).1 (Geometry.realToPixel rx ry fp).2 fp).2 - ry| ≤ 1e-9 ∧
    |(V0.realToPixel (V0.pixelToReal px py fp).1 (V0.pixelToReal px py fp).2 fp).1 - px| ≤ 1e-9 ∧
    |(V0.realToPixel (V0.pixelToReal px py fp).1 (V0.pixelToReal px py fp).2 fp).2 - py| ≤ 1e-9 ∧
    |(V0.pixelToReal (V0.realToPixel rx ry fp).1 (V0.realToPixel rx ry fp).2 fp).1 - rx| ≤ 1e-9 ∧
    |(V0.pixelToReal (V0.realToPixel rx ry fp).1 (V0.realToPixel rx ry fp).2 fp).2 - ry| ≤ 1e-9 := by
  have hne : fp.pixelsPerMeter ≠ 0 := ne_of_gt hppm
  have e1 : fp.height * fp.pixelsPerMeter -
      (fp.height * fp.pixelsPerMeter - px) / fp.pixelsPerMeter * fp.pixelsPerMeter = px := by
    field_simp
  have e2 : py / fp.pixelsPerMeter * fp.pixelsPerMeter = py := by field_simp
  have e3 : rx * fp.pixelsPerMeter / fp.pixelsPerMeter = rx := by field_simp
  have e4 : (fp.height * fp.pixelsPerMeter -
      (fp.height * fp.pixelsPerMeter - ry * fp.pixelsPerMeter)) / fp.pixelsPerMeter = ry := by
    field_simp
  have e5 : px / fp.pixelsPerMeter * fp.pixelsPerMeter = px := by field_simp
  have e6 : ry * fp.pixelsPerMeter / fp.pixelsPerMeter = ry := by field_simp
  refine ⟨?_, ?_, ?_, ?_, ?_, ?_, ?_, ?_⟩
  · show |fp.height * fp.pixelsPerMeter -
        (fp.height * fp.pixelsPerMeter - px) / fp.pixelsPerMeter * fp.pixelsPerMeter - px| ≤ 1e-9
    rw [e1, sub_self, abs_zero]; norm_num
  · show |py / fp.pixelsPerMeter * fp.pixelsPerMeter - py| ≤ 1e-9
    rw [e2, sub_self, abs_zero]; norm_num
  · show |rx * fp.pixelsPerMeter / fp.pixelsPerMeter - rx| ≤ 1e-9
    rw [e3, sub_self, abs_zero]; norm_num
  · show |(fp.height * fp.pixelsPerMeter -
        (fp.height * fp.pixelsPerMeter - ry * fp.pixelsPerMeter)) / fp.pixelsPerMeter - ry| ≤ 1e-9
    rw [e4, sub_self, abs_zero]; norm_num
  · show |px / fp.pixelsPerMeter * fp.pixelsPerMeter - px| ≤ 1e-9
    rw [e5, sub_self, abs_zero]; norm_num
  · show |py / fp.pixelsPerMeter * fp.pixelsPerMeter - py| ≤ 1e-9
    rw [e2, sub_self, abs_zero]; norm_num
  · show |rx * fp.pixelsPerMeter / fp.pixelsPerMeter - rx| ≤ 1e-9
    rw [e3, sub_self, abs_zero]; norm_num
  · show |ry * fp.pixelsPerMeter / fp.pixelsPerMeter - ry| ≤ 1e-9
    rw [e6, sub_self, abs_zero]; norm_num

/-- Witness for C6 at the default floor plan (12 m by 8 m at 50 px/m) and
concrete coordinates. -/
theorem pixel_real_roundtrip_witness :
    |(Geometry.realToPixel (Geometry.pixelToReal 30 40 fp0).1 (Geometry.pixelToReal 30 40 fp0).2 fp0).1 - 30| ≤ 1e-9 ∧
    |(Geometry.realToPixel (Geometry.pixelToReal 30 40 fp0).1 (Geometry.pixelToReal 30 40 fp0).2 fp0).2 - 40| ≤ 1e-9 ∧
    |(Geometry.pixelToReal (Geometry.realToPixel 2 5 fp0).1 (Geometry.realToPixel 2 5 fp0).2 fp0).1 - 2| ≤ 1e-9 ∧
    |(Geometry.pixelToReal (Geometry.realToPixel 2 5 fp0).1 (Geometry.realToPixel 2 5 fp0).2 fp0).2 - 5| ≤ 1e-9 ∧
    |(V0.realToPixel (V0.pixelToReal 30 40 fp0).1 (V0.pixelToReal 30 40 fp0).2 fp0).1 - 30| ≤ 1e-9 ∧
    |(V0.realToPixel (V0.pixelToReal 30 40 fp0).1 (V0.pixelToReal 30 40 fp0).2 fp0).2 - 40| ≤ 1e-9 ∧
    |(V0.pixelToReal (V0.realToPixel 2 5 fp0).1 (V0.realToPixel 2 5 fp0).2 fp0).1 - 2| ≤ 1e-9 ∧
    |(V0.pixelToReal (V0.realToPixel 2 5 fp0).1 (V0.realToPixel 2 5 fp0).2 fp0).2 - 5| ≤ 1e-9 :=
  pixel_real_roundtrip fp0 (by norm_num [fp0]) 30 40 2 5

/-- C7: for `min < max`, `degreesToPercent` is the linear map
`((deg - min) / (max - min)) * 100` clamped into `[0, 100]`;
`percentToDegrees` inverts it exactly on `[min, max]` (exact real arithmetic,
hence within any rounding tolerance); and outside `[min, max]` the percent is
exactly `0` respectively `100`. -/
theorem degreesToPercent_spec (degrees mn mx : ℝ) (h : mn < mx) :
    Geometry.degreesToPercent degrees mn mx
      = max 0 (min 100 ((degrees - mn) / (mx - mn) * 100)) ∧
    (mn ≤ degrees → degrees ≤ mx →
      Geometry.percentToDegrees (Geometry.degreesToPercent degrees mn mx) mn mx = degrees) ∧
    (degrees < mn → Geometry.degreesToPercent degrees mn mx = 0) ∧
    (mx < degrees → Geometry.degreesToPercent degrees mn mx = 100) := by
  have hd : 0 < mx - mn := sub_pos.mpr h
  have hne : mx - mn ≠ 0 := ne_of_gt hd
  refine ⟨rfl, ?_, ?_, ?_⟩
  · intro h1 h2
    have hv0 : 0 ≤ (degrees - mn) / (mx - mn) * 100 :=
      mul_nonneg (div_nonneg (by linarith) (le_of_lt hd)) (by norm_num)
    have hv1 : (degrees - mn) / (mx - mn) * 100 ≤ 100 := by
      have hq : (degrees - mn) / (mx - mn) ≤ 1 := (div_le_one hd).mpr (by linarith)
      nlinarith
    unfold Geometry.degreesToPercent Geometry.percentToDegrees
    rw [min_eq_right hv1, max_eq_right hv0]
    field_simp
    ring
  · intro hlt
    have hv : (degrees - mn) / (mx - mn) * 100 < 0 :=
      mul_neg_of_neg_of_pos (div_neg_of_neg_of_pos (by linarith) hd) (by norm_num)
    unfold Geometry.degreesToPercent
    rw [min_eq_right (by linarith : (degrees - mn) / (mx - mn) * 100 ≤ 100),
      max_eq_left (le_of_lt hv)]
  · intro hgt
    have hq : 1 < (degrees - mn) / (mx - mn) := (one_lt_div hd).mpr (by linarith)
    have hv : 100 < (degrees - mn) / (mx - mn) * 100 := by nlinarith
    unfold Geometry.degreesToPercent
    rw [min_eq_left (le_of_lt hv), max_eq_right (by norm_num : (0:ℝ) ≤ 100)]

/-- Witness for C7 on the range `[-134, 134]` at `67` degrees. -/
theorem degreesToPercent_spec_witness :
    Geometry.degreesToPercent 67 (-134) 134
      = max 0 (min 100 ((67 - -134) / (134 - -134) * 100)) ∧
    ((-134 : ℝ) ≤ 67 → (67 : ℝ) ≤ 134 →
      Geometry.percentToDegrees (Geometry.degreesToPercent 67 (-134) 134) (-134) 134 = 67) ∧
    ((67 : ℝ) < -134 → Geometry.degreesToPercent 67 (-134) 134 = 0) ∧
    ((134 : ℝ) < 67 → Geometry.degreesToPercent 67 (-134) 134 = 100) :=
  degreesToPercent_spec 67 (-134) 134 (by norm_num)

/-- C8 counterexample: invoked with the malformed range `min = max = 5`, the
percent conversion signals nothing — it is a total function and silently
returns a number.  In the exact-real embedding `(7 - 5) / 0 = 0`, so the
returned value is `0`; under JavaScript float semantics the same call yields
`100` (the `Infinity` quotient is clamped).  Either way the call returns a
plain numeric value; there is no assertion, exception, or error result in
`degreesToPercent` (geometry.ts lines 60-66). -/
theorem degreesToPercent_no_loud_failure : Geometry.degreesToPercent 7 5 5 = 0 := by
  unfold Geometry.degreesToPercent
  norm_num

/-- C8 amended: `degreesToPercent` performs no range validation; for every
input, malformed range included, it silently returns the clamped value, which
in the exact-real model always lies in `[0, 100]`. -/
theorem degreesToPercent_total_clamped (degrees mn mx : ℝ) :
    0 ≤ Geometry.degreesToPercent degrees mn mx ∧
    Geometry.degreesToPercent degrees mn mx ≤ 100 :=
  ⟨le_max_left _ _, max_le (by norm_num) (min_le_left _ _)⟩

/-- C2 (failing input): for the fixture `fix2` with `panRange = [-10, 10]`
aimed at `(1, 0)`, the unclamped pan (after inversion and offset, before
wrapping/clamping) is `90°`, far outside the configured pan range — yet
`isTargetReachable` returns true, because it tests the output of the
canonical `calculatePanTilt`, which has already been clamped into range.
The spec requires the unclamped angles to be tested, so a target that the
fixture cannot physically reach is reported as reachable. -/
theorem isTargetReachable_checks_clamped :
    Geometry.isTargetReachable fix2 1 0 ∧
    Geometry.panAfterCalibration fix2 1 0 = 90 ∧
    ¬ (fix2.panRange.min ≤ Geometry.panAfterCalibration fix2 1 0 ∧
       Geometry.panAfterCalibration fix2 1 0 ≤ fix2.panRange.max) := by
  have hraw : Geometry.rawPan fix2 1 0 = 90 := by
    norm_num [Geometry.rawPan, fix2, fix1, jsAtan2_one_zero, toDegrees_pi_div_two]
  have hcal : Geometry.panAfterCalibration fix2 1 0 = 90 := by
    unfold Geometry.panAfterCalibration Geometry.calibrate
    rw [hraw]
    norm_num [fix2, fix1]
  have hpan : (Geometry.calculatePanTilt fix2 1 0 0).pan = 10 := by
    show Geometry.applyPanRange fix2.panRange (Geometry.panAfterCalibration fix2 1 0) = 10
    rw [hcal]
    unfold Geometry.applyPanRange
    rw [if_neg (by norm_num [fix2, fix1])]
    norm_num [fix2, fix1, min_def, max_def]
  have htilt : fix2.tiltRange.min ≤ (Geometry.calculatePanTilt fix2 1 0 0).tilt ∧
      (Geometry.calculatePanTilt fix2 1 0 0).tilt ≤ fix2.tiltRange.max :=
    applyTiltRange_mem fix2.tiltRange (by norm_num [fix2, fix1]) _
  refine ⟨⟨⟨?_, ?_⟩, htilt⟩, hcal, ?_⟩
  · rw [hpan]; norm_num [fix2, fix1]
  · rw [hpan]; norm_num [fix2, fix1]
  · rw [hcal]; norm_num [fix2, fix1]

/-- C3 counterexample: the fixture `fix3` has the full `[-270, 270]` pan
range (span `540 ≥ 360 - 1e-6`) and a `-200°` pan offset; aiming it at
`(0, 1)` gives a calibrated pan of `-200°`, and the wrap formula
`((pan + 180) % 360) - 180` with the JavaScript remainder returns `-200`,
which is NOT in the claimed interval `(-180, 180]`; the conditional clamp
then leaves it unchanged, so the returned pan is `-200`. -/
theorem panWrap_leaves_claimed_interval :
    360 - 1e-6 ≤ fix3.panRange.max - fix3.panRange.min ∧
    Geometry.panAfterCalibration fix3 0 1 = -200 ∧
    Geometry.wrapPan (Geometry.panAfterCalibration fix3 0 1) = -200 ∧
    Geometry.wrapPan (Geometry.panAfterCalibration fix3 0 1) ∉ Set.Ioc (-180 : ℝ) 180 ∧
    (Geometry.calculatePanTilt fix3 0 1 0).pan = -200 := by
  have hraw : Geometry.rawPan fix3 0 1 = 0 := by
    norm_num [Geometry.rawPan, fix3, fix1, jsAtan2_zero_one, toDegrees_zero]
  have hcal : Geometry.panAfterCalibration fix3 0 1 = -200 := by
    unfold Geometry.panAfterCalibration Geometry.calibrate
    rw [hraw]
    norm_num [fix3, fix1]
  have hwrap : Geometry.wrapPan (-200) = -200 := by
    unfold Geometry.wrapPan jsRem truncR
    rw [if_neg (by norm_num : ¬ (0 : ℝ) ≤ ((-200 : ℝ) + 180) / 360)]
    rw [show ⌈((-200 : ℝ) + 180) / 360⌉ = 0 from
      Int.ceil_eq_zero_iff.mpr (by constructor <;> norm_num)]
    norm_num
  refine ⟨by norm_num [fix3, fix1], hcal, by rw [hcal, hwrap], ?_, ?_⟩
  · rw [hcal, hwrap]
    simp only [Set.mem_Ioc, not_and_or, not_lt]
    left
    norm_num
  · show Geometry.applyPanRange fix3.panRange (Geometry.panAfterCalibration fix3 0 1) = -200
    rw [hcal]
    unfold Geometry.applyPanRange
    rw [if_pos (by norm_num [fix3, fix1]), hwrap]
    rw [if_neg (by norm_num [fix3, fix1]), if_neg (by norm_num [fix3, fix1])]

/-- C3 amended: whenever the configured pan range spans at least
`360 - 1e-6` degrees, the canonical aiming function transforms the pan after
inversion and offset by `((pan + 180) % 360) - 180` with the JavaScript
truncating remainder — a value that lies in `[-180, 180)` whenever the
calibrated pan is at least `-180` (not in `(-180, 180]` in general: a
calibrated pan below `-180°` passes through unchanged, and `-180` itself is
attainable) — and then clamps to the nearer range bound only if the wrapped
value still falls outside the range; in particular the wrap-and-clamp stage
`applyPanRange` maps a pan of `200°` with `panRange = {-270, 270}` to
`-160°`. -/
theorem panWrap_amended :
    (∀ p : ℝ, -180 ≤ p → Geometry.wrapPan p ∈ Set.Ico (-180 : ℝ) 180) ∧
    (∀ (f : Fixture) (targetX targetY targetZ : ℝ),
      360 - 1e-6 ≤ f.panRange.max - f.panRange.min →
      (Geometry.calculatePanTilt f targetX targetY targetZ).pan =
        (if Geometry.wrapPan (Geometry.panAfterCalibration f targetX targetY) < f.panRange.min
         then f.panRange.min
         else if f.panRange.max < Geometry.wrapPan (Geometry.panAfterCalibration f targetX targetY)
         then f.panRange.max
         else Geometry.wrapPan (Geometry.panAfterCalibration f targetX targetY))) ∧
    Geometry.applyPanRange { min := -270, max := 270 } 200 = -160 := by
  refine ⟨fun p hp => wrapPan_mem_Ico hp, ?_, ?_⟩
  · intro f tX tY tZ hspan
    show Geometry.applyPanRange f.panRange (Geometry.panAfterCalibration f tX tY) = _
    unfold Geometry.applyPanRange
    rw [if_pos hspan]
  · have hw : Geometry.wrapPan 200 = -160 := by
      unfold Geometry.wrapPan jsRem truncR
      rw [if_pos (by norm_num : (0 : ℝ) ≤ ((200 : ℝ) + 180) / 360)]
      rw [show ⌊((200 : ℝ) + 180) / 360⌋ = 1 from
        Int.floor_eq_iff.mpr (by constructor <;> norm_num)]
      norm_num
    unfold Geometry.applyPanRange
    rw [if_pos (by norm_num), hw]
    norm_num

/-- Witness for C3's amended statement: the wrap lands in `[-180, 180)` at
`p = 0`, and the canonical function at the default fixture (span 540) equals
the wrap-then-conditionally-clamp composition. -/
theorem panWrap_amended_witness :
    Geometry.wrapPan 0 ∈ Set.Ico (-180 : ℝ) 180 ∧
    (Geometry.calculatePanTilt fix1 2 3 0).pan =
      (if Geometry.wrapPan (Geometry.panAfterCalibration fix1 2 3) < fix1.panRange.min
       then fix1.panRange.min
       else if fix1.panRange.max < Geometry.wrapPan (Geometry.panAfterCalibration fix1 2 3)
       then fix1.panRange.max
       else Geometry.wrapPan (Geometry.panAfterCalibration fix1 2 3)) :=
  ⟨panWrap_amended.1 0 (by norm_num),
   panWrap_amended.2.1 fix1 2 3 0 (by norm_num [fix1])⟩

/-- C4 counterexample: in the part_000 variant the offset is added BEFORE
the inversion.  The fixture `fix4` has `panInverted = true`,
`panOffset = 10`; aimed at `(√3, 1)` its raw computed pan is exactly `30°`,
but the calibrated pan (before the normalization loops) is
`-(30 + 10) = -40`, not `-30 + 10 = -20`. -/
theorem v0_offset_before_inversion :
    fix4.panInverted = true ∧ fix4.panOffset = 10 ∧
    V0.rawPan fix4 (Real.sqrt 3) 1 = 30 ∧
    V0.panAfterCalibration fix4 (Real.sqrt 3) 1 = -40 ∧
    ((-40 : ℝ) ≠ -20) := by
  have hraw : V0.rawPan fix4 (Real.sqrt 3) 1 = 30 := by
    norm_num [V0.rawPan, fix4, fix1, jsAtan2_one_sqrt3, toDegrees_pi_div_six]
  refine ⟨rfl, rfl, hraw, ?_, by norm_num⟩
  unfold V0.panAfterCalibration
  rw [hraw]
  norm_num [fix4, fix1]

/-- C4 amended: in the canonical variant (`geometry.ts`) the inversion is
applied to the raw angle before the additive offset, for both pan and tilt;
in particular a fixture with `panInverted = true`, `panOffset = 10` and raw
pan `30°` gets the calibrated pan `-30 + 10 = -20`.  In the part_000 variant
the order is reversed (see the counterexample), so the property holds for
the canonical variant only. -/
theorem inversion_before_offset_canonical :
    (∀ (f : Fixture) (targetX targetY : ℝ),
      f.panInverted = true → f.panOffset = 10 →
      Geometry.rawPan f targetX targetY = 30 →
      Geometry.panAfterCalibration f targetX targetY = -20) ∧
    (∀ (f : Fixture) (targetX targetY targetZ : ℝ),
      Geometry.panAfterCalibration f targetX targetY =
        (if f.panInverted then -Geometry.rawPan f targetX targetY
         else Geometry.rawPan f targetX targetY) + f.panOffset ∧
      Geometry.tiltAfterCalibration f targetX targetY targetZ =
        (if f.tiltInverted then -Geometry.rawTilt f targetX targetY targetZ
         else Geometry.rawTilt f targetX targetY targetZ) + f.tiltOffset) := by
  constructor
  · intro f tX tY hinv hoff hraw
    unfold Geometry.panAfterCalibration Geometry.calibrate
    rw [hraw, hinv, hoff]
    norm_num
  · intro f tX tY tZ
    exact ⟨rfl, rfl⟩

/-- Witness for C4's amended statement: the canonical variant on `fix4`
aimed at `(1, √3)` has raw pan exactly `30°` and calibrated pan `-20°`. -/
theorem inversion_before_offset_witness :
    Geometry.panAfterCalibration fix4 1 (Real.sqrt 3) = -20 :=
  inversion_before_offset_canonical.1 fix4 1 (Real.sqrt 3) rfl rfl
    (by norm_num [Geometry.rawPan, fix4, fix1, jsAtan2_one_sqrt3, toDegrees_pi_div_six])

/-- C5 counterexample: the returned tilt in the degenerate overhead case is
the CLAMPED `±90`, not always `±90` itself.  The fixture `fix5` has
`tiltRange = [0, 10]`, no inversion and zero offsets; with the target
directly above it (`dx = dy = 0`, `fixture.z - targetZ = -1 < 0`) the
returned tilt is `0`, not the claimed `-90`. -/
theorem tilt_degenerate_clamped :
    fix5.tiltInverted = false ∧ fix5.tiltOffset = 0 ∧ fix5.z - 1 < 0 ∧
    (Geometry.calculatePanTilt fix5 fix5.x fix5.y 1).tilt = 0 ∧ ((0 : ℝ) ≠ -90) := by
  have hh : Geometry.horizontalDist fix5 fix5.x fix5.y = 0 := by
    norm_num [Geometry.horizontalDist, fix5, fix1]
  have hrt : Geometry.rawTilt fix5 fix5.x fix5.y 1 = -90 := by
    unfold Geometry.rawTilt
    rw [if_pos hh, if_neg (by norm_num [fix5, fix1] : ¬ (0 : ℝ) < fix5.z - 1)]
  have htc : Geometry.tiltAfterCalibration fix5 fix5.x fix5.y 1 = -90 := by
    unfold Geometry.tiltAfterCalibration Geometry.calibrate
    rw [hrt]
    norm_num [fix5, fix1]
  refine ⟨rfl, rfl, by norm_num [fix5, fix1], ?_, by norm_num⟩
  show Geometry.applyTiltRange fix5.tiltRange (Geometry.tiltAfterCalibration fix5 fix5.x fix5.y 1) = 0
  rw [htc]
  norm_num [Geometry.applyTiltRange, fix5, fix1, min_def, max_def]

/-- C5 amended: in the canonical aiming function with `dx = dy = 0`, no tilt
inversion and zero tilt offset, and a tilt range containing `±90` (so the
clamp of the final step is inactive), the returned tilt is exactly `-90`
when the target is above the fixture and exactly `+90` when it is below; in
the exact-real embedding every branch returns a real number, so no `NaN`
can arise (the `h = 0` branch avoids `atan2(0, 0)` altogether). -/
theorem tilt_degenerate (f : Fixture) (targetZ : ℝ)
    (hinv : f.tiltInverted = false) (hoff : f.tiltOffset = 0)
    (hmin : f.tiltRange.min ≤ -90) (hmax : (90 : ℝ) ≤ f.tiltRange.max) :
    (f.z - targetZ < 0 → (Geometry.calculatePanTilt f f.x f.y targetZ).tilt = -90) ∧
    (0 < f.z - targetZ → (Geometry.calculatePanTilt f f.x f.y targetZ).tilt = 90) := by
  have hh : Geometry.horizontalDist f f.x f.y = 0 := by
    unfold Geometry.horizontalDist
    simp
  constructor
  · intro hneg
    have hrt : Geometry.rawTilt f f.x f.y targetZ = -90 := by
      unfold Geometry.rawTilt
      rw [if_pos hh, if_neg (by linarith)]
    have htc : Geometry.tiltAfterCalibration f f.x f.y targetZ = -90 := by
      unfold Geometry.tiltAfterCalibration Geometry.calibrate
      rw [hrt, hinv, hoff]
      norm_num
    show Geometry.applyTiltRange f.tiltRange (Geometry.tiltAfterCalibration f f.x f.y targetZ) = -90
    rw [htc]
    unfold Geometry.applyTiltRange
    rw [min_eq_right (by linarith : (-90 : ℝ) ≤ f.tiltRange.max), max_eq_right hmin]
  · intro hpos
    have hrt : Geometry.rawTilt f f.x f.y targetZ = 90 := by
      unfold Geometry.rawTilt
      rw [if_pos hh, if_pos hpos]
    have htc : Geometry.tiltAfterCalibration f f.x f.y targetZ = 90 := by
      unfold Geometry.tiltAfterCalibration Geometry.calibrate
      rw [hrt, hinv, hoff]
      norm_num
    show Geometry.applyTiltRange f.tiltRange (Geometry.tiltAfterCalibration f f.x f.y targetZ) = 90
    rw [htc]
    unfold Geometry.applyTiltRange
    rw [min_eq_right hmax, max_eq_right (by linarith : f.tiltRange.min ≤ (90 : ℝ))]

/-- Witness for C5's amended statement: the default fixture (height 3 m,
tilt range `[-134, 134]`) aimed at the point directly above itself at
height 4 m gets tilt exactly `-90`. -/
theorem tilt_degenerate_witness :
    (Geometry.calculatePanTilt fix1 fix1.x fix1.y 4).tilt = -90 :=
  (tilt_degenerate fix1 4 rfl rfl (by norm_num [fix1]) (by norm_num [fix1])).1
    (by norm_num [fix1])

/-- C9: both variants of the aiming function are total functions of their
real inputs (the embedding's totality is the source's termination and
exception freedom: the part_000 normalization loops are modelled by the
closed form they reach in finitely many steps), and the outputs satisfy
explicit finite bounds — the canonical variant stays within the configured
ranges, the part_000 variant within `[-270, 270]` for pan and
`180 + |tiltOffset|` for tilt.  In the exact-real model no `NaN` or infinite
value exists; the code's only `NaN` sources (`atan2(0,0)`, `sqrt` of a
negative) are avoided or yield real values here. -/
theorem aim_outputs_finite :
    (∀ (f : Fixture) (targetX targetY targetZ : ℝ),
      f.panRange.min ≤ f.panRange.max → f.tiltRange.min ≤ f.tiltRange.max →
      |(Geometry.calculatePanTilt f targetX targetY targetZ).pan| ≤
        max |f.panRange.min| |f.panRange.max| ∧
      |(Geometry.calculatePanTilt f targetX targetY targetZ).tilt| ≤
        max |f.tiltRange.min| |f.tiltRange.max|) ∧
    (∀ (f : Fixture) (targetX targetY targetZ : ℝ),
      |(V0.calculatePanTilt f targetX targetY targetZ).pan| ≤ 270 ∧
      |(V0.calculatePanTilt f targetX targetY targetZ).tilt| ≤ 180 + |f.tiltOffset|) := by
  constructor
  · intro f tX tY tZ hp ht
    constructor
    · show |Geometry.applyPanRange f.panRange (Geometry.panAfterCalibration f tX tY)| ≤ _
      have h1 := applyPanRange_mem f.panRange hp (Geometry.panAfterCalibration f tX tY)
      refine abs_le.mpr ⟨?_, ?_⟩
      · have a1 : -|f.panRange.min| ≤ f.panRange.min := neg_abs_le _
        have a2 : |f.panRange.min| ≤ max |f.panRange.min| |f.panRange.max| := le_max_left _ _
        linarith [h1.1]
      · have a1 : f.panRange.max ≤ |f.panRange.max| := le_abs_self _
        have a2 : |f.panRange.max| ≤ max |f.panRange.min| |f.panRange.max| := le_max_right _ _
        linarith [h1.2]
    · show |Geometry.applyTiltRange f.tiltRange (Geometry.tiltAfterCalibration f tX tY tZ)| ≤ _
      have h2 := applyTiltRange_mem f.tiltRange ht (Geometry.tiltAfterCalibration f tX tY tZ)
      refine abs_le.mpr ⟨?_, ?_⟩
      · have a1 : -|f.tiltRange.min| ≤ f.tiltRange.min := neg_abs_le _
        have a2 : |f.tiltRange.min| ≤ max |f.tiltRange.min| |f.tiltRange.max| := le_max_left _ _
        linarith [h2.1]
      · have a1 : f.tiltRange.max ≤ |f.tiltRange.max| := le_abs_self _
        have a2 : |f.tiltRange.max| ≤ max |f.tiltRange.min| |f.tiltRange.max| := le_max_right _ _
        linarith [h2.2]
  · intro f tX tY tZ
    constructor
    · show |V0.normalizePan (V0.panAfterCalibration f tX tY)| ≤ 270
      have h := normalizePan_mem (V0.panAfterCalibration f tX tY)
      exact abs_le.mpr ⟨h.1, h.2⟩
    · show |V0.tiltAfterCalibration f tX tY tZ| ≤ 180 + |f.tiltOffset|
      have hb : V0.rawTilt f tX tY tZ ∈ Set.Icc (-180 : ℝ) 180 := by
        unfold V0.rawTilt
        exact jsAtan2_deg_mem _ _
      have habs : |V0.rawTilt f tX tY tZ| ≤ 180 := abs_le.mpr ⟨hb.1, hb.2⟩
      have hsum : |V0.rawTilt f tX tY tZ + f.tiltOffset| ≤ 180 + |f.tiltOffset| :=
        le_trans (abs_add _ _) (by linarith)
      unfold V0.tiltAfterCalibration
      split_ifs with hi
      · rw [abs_neg]; exact hsum
      · exact hsum

/-- Witness for C9 at the first default fixture and target `(1, 3, 0)`. -/
theorem aim_outputs_finite_witness :
    |(Geometry.calculatePanTilt fix1 1 3 0).pan| ≤ max |fix1.panRange.min| |fix1.panRange.max| ∧
    |(Geometry.calculatePanTilt fix1 1 3 0).tilt| ≤ max |fix1.tiltRange.min| |fix1.tiltRange.max| ∧
    |(V0.calculatePanTilt fix1 1 3 0).pan| ≤ 270 ∧
    |(V0.calculatePanTilt fix1 1 3 0).tilt| ≤ 180 + |fix1.tiltOffset| :=
  ⟨(aim_outputs_finite.1 fix1 1 3 0 (by norm_num [fix1]) (by norm_num [fix1])).1,
   (aim_outputs_finite.1 fix1 1 3 0 (by norm_num [fix1]) (by norm_num [fix1])).2,
   (aim_outputs_finite.2 fix1 1 3 0).1,
   (aim_outputs_finite.2 fix1 1 3 0).2⟩

/-- C10: frame effect of the store action `aimFixtureAt`.  If no fixture
carries the requested id, the state is returned entirely unchanged.  If the
search finds a fixture `fx`, then the shared `targetPoint` becomes `(x, y)`,
the remaining state fields are untouched, the fixture list keeps its length,
every fixture whose id differs from the requested one is unchanged, and a
fixture carrying the id is replaced by a copy whose `pan`, `tilt`,
`targetX`, `targetY` are overwritten (pan/tilt with the canonical aim of the
found fixture at floor level) and whose every other field — position,
calibration, ranges, color, dimmer, and the rest — is preserved by the
record update. -/
theorem aimFixtureAt_frame (s : Store.LightingState) (fixtureId : ℤ) (x y : ℝ) :
    ((∀ f ∈ s.fixtures, f.id ≠ fixtureId) → Store.aimFixtureAt s fixtureId x y = s) ∧
    (∀ fx, s.fixtures.find? (fun f => f.id == fixtureId) = some fx →
      (Store.aimFixtureAt s fixtureId x y).targetPoint = some (x, y) ∧
      (Store.aimFixtureAt s fixtureId x y).selectedFixtures = s.selectedFixtures ∧
      (Store.aimFixtureAt s fixtureId x y).floorPlan = s.floorPlan ∧
      (Store.aimFixtureAt s fixtureId x y).fixtures.length = s.fixtures.length ∧
      (∀ (i : ℕ) (hi : i < s.fixtures.length)
          (hi2 : i < (Store.aimFixtureAt s fixtureId x y).fixtures.length),
        ((s.fixtures[i].id ≠ fixtureId →
          (Store.aimFixtureAt s fixtureId x y).fixtures[i] = s.fixtures[i]) ∧
        (s.fixtures[i].id = fixtureId →
          (Store.aimFixtureAt s fixtureId x y).fixtures[i] =
            { s.fixtures[i] with
              pan := (Geometry.calculatePanTilt fx x y 0).pan
              tilt := (Geometry.calculatePanTilt fx x y 0).tilt
              targetX := x
              targetY := y })))) := by
  constructor
  · intro hnone
    have hfind : s.fixtures.find? (fun f => f.id == fixtureId) = none := by
      rw [List.find?_eq_none]
      intro f hf
      simpa using hnone f hf
    unfold Store.aimFixtureAt
    rw [hfind]
  · intro fx hfx
    unfold Store.aimFixtureAt
    rw [hfx]
    refine ⟨rfl, rfl, rfl, by simp, ?_⟩
    intro i hi hi2
    constructor
    · intro hne
      simp only [List.getElem_map]
      rw [if_neg (by simpa using hne)]
    · intro heq
      simp only [List.getElem_map]
      rw [if_pos (by simpa using heq)]

/-- Witness for C10: aiming a store whose only fixture has id 1 at a
nonexistent id 99 leaves the state unchanged. -/
theorem aimFixtureAt_frame_witness : Store.aimFixtureAt s0 99 2 3 = s0 :=
  (aimFixtureAt_frame s0 99 2 3).1 (by norm_num [s0, fix1])

end SpotPointer
